import Mathlib

/-!
A shallow embedding of `src/recipe_bot.py` (the Recipe Bot orchestrator):
the fallback responder, the prompt loader, the `RecipeBot` class with its
`get_ai_response` method, and the chat-surface event loop of `main`.

External effects are modelled as explicit oracles:
  * the OpenAI completion backend is a function `ChatRequest → Except String String`
    (`.ok content` for a successful completion, `.error e` for any exception
    raised by the call or while reading the response);
  * the Jinja2 template load-and-render step is a function
    `Option String → Except String String` (argument: `additional_context`);
  * the `OPENAI_API_KEY` environment variable is an `Option String` read once
    at construction.
Machine-visible notices (`st.warning` / `st.error`) are collected in explicit
output lists.
-/

/-- A chat message dict `{"role": ..., "content": ...}` as used throughout
`recipe_bot.py` (conversation history entries and API request messages). -/
structure Message where
  role : String
  content : String
deriving DecidableEq, Repr

/-- Python `str.lower()` (on the ASCII alphabet, which covers every keyword
the fallback responder tests). -/
def py_lower (s : String) : String :=
  ⟨s.data.map Char.toLower⟩

/-- Python substring containment `needle in haystack` for strings:
`needle` occurs contiguously anywhere in `haystack`. -/
def contains_sub (haystack needle : String) : Bool :=
  decide (needle.data <:+: haystack.data)

/-- Canned reply for the pasta keyword set (line 84 of `recipe_bot.py`). -/
def pasta_reply : String :=
  "🍝 Here\x27s a simple pasta recipe: Cook pasta according to package directions. Meanwhile, heat olive oil in a pan, add garlic, then your favorite sauce. Toss with pasta and enjoy!"

/-- Canned reply for the chicken/meat keyword set (line 87). -/
def chicken_reply : String :=
  "🐔 For a quick chicken dish: Season chicken breast with salt, pepper, and herbs. Cook in a hot pan with oil for 6-7 minutes per side until golden and cooked through."

/-- Canned reply for the vegetarian keyword set (line 90). -/
def vegetarian_reply : String :=
  "🥗 Try a veggie stir-fry: Heat oil in a wok, add your favorite vegetables, stir-fry for 3-5 minutes, season with soy sauce and garlic. Serve over rice!"

/-- Canned reply for the dessert keyword set (line 93). -/
def dessert_reply : String :=
  "🍰 Quick dessert idea: Mix 1 mug of flour, sugar, cocoa powder, baking powder, milk, and oil. Microwave for 90 seconds for a mug cake!"

/-- Generic capability-description reply when no keyword set matches (line 96). -/
def generic_reply : String :=
  "👨‍🍳 I\x27m a recipe bot! I can help you with cooking ideas, recipes, and meal planning. What would you like to cook today? You can ask me about specific ingredients, dietary preferences, or types of cuisine!"

/-- Method `RecipeBot._get_fallback_response` (lines 79-96): lowercases the message
and returns the canned reply of the first keyword set with a member occurring
as a substring, else the generic reply. -/
def get_fallback_response (user_message : String) : String :=
  let user_lower := py_lower user_message
  if ["pasta", "spaghetti", "noodles"].any (fun word => contains_sub user_lower word) then
    pasta_reply
  else if ["chicken", "meat"].any (fun word => contains_sub user_lower word) then
    chicken_reply
  else if ["vegetarian", "vegan", "vegetables"].any (fun word => contains_sub user_lower word) then
    vegetarian_reply
  else if ["dessert", "sweet", "cake"].any (fun word => contains_sub user_lower word) then
    dessert_reply
  else
    generic_reply

/-- The built-in default system prompt returned when the template cannot be
loaded (lines 40-46), including the indentation of the source literal. -/
def default_prompt : String :=
  "You are a helpful recipe bot assistant. You specialize in:\n            - Suggesting recipes based on ingredients or dietary preferences\n            - Providing cooking instructions and tips\n            - Helping with meal planning\n            - Answering cooking and nutrition questions\n            \n            Keep your responses helpful, friendly, and focused on recipes and cooking."

/-- Method `RecipeBot._load_system_prompt` (lines 28-46). `render` is the oracle for
the Jinja2 `get_template / template.render` step on `recipe_bot_prompt.j2`
(`.error e` when locating or rendering raises). Returns the prompt together
with the list of `st.warning` notices emitted. On failure the method warns
and returns the built-in default; it never re-raises. -/
def load_system_prompt (render : Option String → Except String String)
    (additional_context : Option String) : String × List String :=
  match render additional_context with
  | .ok rendered => (rendered, [])
  | .error e => (default_prompt, ["Could not load prompt template: " ++ e])

/-- Construction-time state of the orchestrator: `self.client` (present iff the
`OPENAI_API_KEY` environment variable was truthy, storing the key) and
`self.system_prompt`. No method of the class assigns to either field after
`__init__`. -/
structure RecipeBot where
  client : Option String
  system_prompt : String
deriving DecidableEq, Repr

/-- Python truthiness of `os.getenv("OPENAI_API_KEY")` (line 22): `None` and
the empty string are falsy, every other string is truthy. -/
def truthy : Option String → Bool
  | none => false
  | some s => !(s == "")

/-- Constructor `RecipeBot.__init__` (lines 19-26): sets `client` iff the environment key
is truthy, loads the system prompt from the template with no
`additional_context` argument (Python default `None`). Also returns the
warnings surfaced by the prompt loader. -/
def recipe_bot_init (openai_api_key : Option String)
    (render : Option String → Except String String) : RecipeBot × List String :=
  let client : Option String :=
    if truthy openai_api_key then openai_api_key else none
  let sp := load_system_prompt render none
  ({ client := client, system_prompt := sp.1 }, sp.2)

/-- One request to `client.chat.completions.create` (lines 66-71). -/
structure ChatRequest where
  model : String
  messages : List Message
  max_tokens : Nat
  temperature : Rat
deriving DecidableEq, Repr

/-- The request `get_ai_response` assembles on the backend path (lines 56-71):
`[system turn] ++ conversation_history ++ [user turn]` with the fixed
parameters `model="gpt-3.5-turbo"`, `max_tokens=500`, `temperature=0.7`. -/
def build_request (bot : RecipeBot) (user_message : String)
    (conversation_history : List Message) : ChatRequest :=
  { model := "gpt-3.5-turbo"
    messages :=
      { role := "system", content := bot.system_prompt }
        :: (conversation_history.map (fun msg => { role := msg.role, content := msg.content }))
        ++ [{ role := "user", content := user_message }]
    max_tokens := 500
    temperature := 7/10 }

/-- The observable outcome of one `get_ai_response` call: the returned text,
the backend requests issued (in order), and the `st.error` notices shown. -/
structure ChatResult where
  text : String
  calls : List ChatRequest
  errors : List String
deriving DecidableEq, Repr

/-- Method `RecipeBot.get_ai_response` (lines 48-77). `backend` is the oracle for the
OpenAI call: `.ok content` stands for a response whose
`choices[0].message.content` is `content`, `.error e` for any exception
raised by the API call inside the `try` block. With no client, the fallback is
returned with no backend call; otherwise the assembled request is issued
once, and on failure an `st.error` notice is recorded and the fallback
returned. -/
def get_ai_response (bot : RecipeBot) (backend : ChatRequest → Except String String)
    (user_message : String) (conversation_history : List Message) : ChatResult :=
  match bot.client with
  | none => { text := get_fallback_response user_message, calls := [], errors := [] }
  | some _ =>
    let req := build_request bot user_message conversation_history
    match backend req with
    | .ok content => { text := content, calls := [req], errors := [] }
    | .error e =>
      { text := get_fallback_response user_message
        calls := [req]
        errors := ["Error getting AI response: " ++ e] }

/-- Wrapper putting `get_ai_response` in state-passing form: the method body only iterates
over `conversation_history` (line 59) and performs no append, assignment,
deletion or reordering on it, and it assigns no attribute of `self`; both
therefore pass through unchanged. -/
def get_ai_response_st (bot : RecipeBot) (backend : ChatRequest → Except String String)
    (user_message : String) (conversation_history : List Message) :
    ChatResult × RecipeBot × List Message :=
  (get_ai_response bot backend user_message conversation_history, bot, conversation_history)

/-- A session of repeated `get_ai_response` calls against the same bot object,
threaded in state-passing form: each call receives the bot state left by the
previous one and the results are collected in order. -/
def run_calls (backend : ChatRequest → Except String String) (bot : RecipeBot) :
    List (String × List Message) → RecipeBot × List ChatResult
  | [] => (bot, [])
  | inp :: rest =>
    let r := get_ai_response_st bot backend inp.1 inp.2
    let tail := run_calls backend r.2.1 rest
    (tail.1, r.1 :: tail.2)

/-- The user message dict appended by the chat surface (line 120). -/
def mk_user_msg (prompt : String) : Message :=
  { role := "user", content := prompt }

/-- The assistant message dict appended by the chat surface (line 136). -/
def mk_assistant_msg (text : String) : Message :=
  { role := "assistant", content := text }

/-- The two session events `main` reacts to: a chat-input submission
(lines 118-136) and the sidebar Clear Chat History button (lines 146-148). -/
inductive ChatEvent where
  | chat_input (prompt : String)
  | clear_history
deriving DecidableEq, Repr

/-- One step of the `main` event loop on `st.session_state.messages`
(lines 118-136, 146-148): a chat input appends the user turn, calls
`get_ai_response` with `messages[:-1]` (the history before the just-appended
user turn), and appends the assistant turn; the clear button resets the
history to `[]`. -/
def step_chat (bot : RecipeBot) (backend : ChatRequest → Except String String)
    (messages : List Message) : ChatEvent → List Message
  | .chat_input prompt =>
    let messages1 := messages ++ [mk_user_msg prompt]
    let response := (get_ai_response bot backend prompt messages1.dropLast).text
    messages1 ++ [mk_assistant_msg response]
  | .clear_history => []

/-- The chat history reached from the initial empty session history
(line 106) after a sequence of events. -/
def run_chat (bot : RecipeBot) (backend : ChatRequest → Except String String)
    (events : List ChatEvent) : List Message :=
  events.foldl (step_chat bot backend) []

/-- Returns `true` iff the message list alternates user, assistant, user, assistant,
... starting with a user turn (the empty list qualifies). -/
def alternates : List Message → Bool
  | [] => true
  | [_] => false
  | u :: a :: rest => u.role == "user" && a.role == "assistant" && alternates rest

/-- Modelled from the spec: the four keyword sets in their fixed priority
order, each with its canned reply, as the tie-break policy lists them
(pasta, then meat, then vegetarian, then dessert). -/
def priority_rules : List (List String × String) :=
  [(["pasta", "spaghetti", "noodles"], pasta_reply),
   (["chicken", "meat"], chicken_reply),
   (["vegetarian", "vegan", "vegetables"], vegetarian_reply),
   (["dessert", "sweet", "cake"], dessert_reply)]

/-- Modelled from the spec: a keyword set matches an utterance iff one of its
keywords occurs in the lowercased utterance. -/
def matches_set (user_message : String) (keywords : List String) : Bool :=
  keywords.any (fun word => contains_sub (py_lower user_message) word)

/-- Modelled from the spec: the reply of the earliest matching set in
priority order, or the generic reply when no set matches. -/
def earliest_matching_reply (user_message : String) : String :=
  match priority_rules.find? (fun rule => matches_set user_message rule.1) with
  | some rule => rule.2
  | none => generic_reply

set_option maxRecDepth 4000

/-! ### Helper lemmas -/

/-- Rebuilding a message dict from its own fields is the identity, so copying
the history turns into the request list (line 60) preserves them. -/
theorem map_copy_eq (l : List Message) :
    l.map (fun msg => ({ role := msg.role, content := msg.content } : Message)) = l := by
  induction l with
  | nil => rfl
  | cons x xs ih => simp [ih]

/-- A `get_ai_response` call issues a backend request iff the client is set. -/
theorem calls_iff_client (bot : RecipeBot) (backend : ChatRequest → Except String String)
    (user_message : String) (conversation_history : List Message) :
    (!(get_ai_response bot backend user_message conversation_history).calls.isEmpty) =
      bot.client.isSome := by
  cases hc : bot.client with
  | none => simp [get_ai_response, hc]
  | some c =>
    cases hb : backend (build_request bot user_message conversation_history) <;>
      simp [get_ai_response, hc, hb]

/-- Running a session of calls leaves the bot state unchanged, and every
call has its backend-attempt flag equal to the fixed client presence. -/
theorem run_calls_spec (backend : ChatRequest → Except String String) (bot : RecipeBot) :
    ∀ inputs : List (String × List Message),
      (run_calls backend bot inputs).1 = bot ∧
      ((run_calls backend bot inputs).2.all
        (fun r => (!r.calls.isEmpty) == bot.client.isSome)) = true
  | [] => by simp [run_calls]
  | inp :: rest => by
    have ih := run_calls_spec backend bot rest
    simp only [run_calls, get_ai_response_st]
    simp [ih.1, ih.2, calls_iff_client]

/-! ### Claims -/

/-- C1: with no API credential (`client = None`), `get_ai_response` makes no
backend call and returns exactly the fallback response for the user message,
for every user message, history and backend. -/
theorem C1_no_credential_pure_fallback (bot : RecipeBot)
    (backend : ChatRequest → Except String String)
    (user_message : String) (conversation_history : List Message)
    (hc : bot.client = none) :
    get_ai_response bot backend user_message conversation_history =
      { text := get_fallback_response user_message, calls := [], errors := [] } := by
  simp [get_ai_response, hc]

/-- Witness for C1 at a concrete bot, backend, message and history. -/
theorem C1_no_credential_pure_fallback_witness :
    get_ai_response { client := none, system_prompt := default_prompt }
        (fun _ => .ok "backend text") "pasta please" [mk_user_msg "hi"] =
      { text := get_fallback_response "pasta please", calls := [], errors := [] } :=
  C1_no_credential_pure_fallback _ _ _ _ rfl

/-- C2: with a credential present, a failing backend call is non-fatal:
exactly one request is issued (no retry), an `st.error` notice is surfaced,
and the returned text is exactly the fallback response for the message —
the same value the no-credential bot returns for that message. -/
theorem C2_backend_failure_fallback (bot : RecipeBot) (c : String)
    (backend : ChatRequest → Except String String)
    (user_message : String) (conversation_history : List Message) (e : String)
    (hc : bot.client = some c)
    (hf : backend (build_request bot user_message conversation_history) = .error e) :
    get_ai_response bot backend user_message conversation_history =
      { text := get_fallback_response user_message
        calls := [build_request bot user_message conversation_history]
        errors := ["Error getting AI response: " ++ e] } ∧
    (get_ai_response bot backend user_message conversation_history).text =
      (get_ai_response { bot with client := none } backend user_message
        conversation_history).text := by
  refine ⟨by simp [get_ai_response, hc, hf], ?_⟩
  simp [get_ai_response, hc, hf]

/-- Witness for C2 at a concrete bot, always-failing backend, message and
history. -/
theorem C2_backend_failure_fallback_witness :
    get_ai_response { client := some "sk-test", system_prompt := default_prompt }
        (fun _ => .error "quota exceeded") "any sweet idea?" [mk_user_msg "hi"] =
      { text := get_fallback_response "any sweet idea?"
        calls := [build_request { client := some "sk-test", system_prompt := default_prompt }
          "any sweet idea?" [mk_user_msg "hi"]]
        errors := ["Error getting AI response: " ++ "quota exceeded"] } :=
  (C2_backend_failure_fallback _ "sk-test" _ _ _ _ rfl rfl).1

/-- C3: on the backend path the single issued request carries the message
list `[system turn] ++ history ++ [user turn]` (history order and content
preserved) with `model = "gpt-3.5-turbo"`, `max_tokens = 500` and
`temperature = 0.7`; on success the completion text of the backend is returned
verbatim. -/
theorem C3_request_assembly (bot : RecipeBot) (c : String)
    (backend : ChatRequest → Except String String)
    (user_message : String) (conversation_history : List Message)
    (hc : bot.client = some c) :
    (get_ai_response bot backend user_message conversation_history).calls =
      [{ model := "gpt-3.5-turbo"
         messages := { role := "system", content := bot.system_prompt }
           :: conversation_history ++ [{ role := "user", content := user_message }]
         max_tokens := 500
         temperature := 7/10 }] ∧
    (∀ t, backend (build_request bot user_message conversation_history) = .ok t →
      (get_ai_response bot backend user_message conversation_history).text = t) := by
  constructor
  · simp only [get_ai_response, hc]
    split <;> simp [build_request, map_copy_eq]
  · intro t ht
    simp [get_ai_response, hc, ht]

/-- Witness for C3 at a concrete bot, succeeding backend, message and
history. -/
theorem C3_request_assembly_witness :
    (get_ai_response { client := some "sk-test", system_prompt := "SP" }
        (fun _ => .ok "a completion") "make pasta" [mk_user_msg "hi"]).calls =
      [{ model := "gpt-3.5-turbo"
         messages := { role := "system", content := "SP" }
           :: [mk_user_msg "hi"] ++ [{ role := "user", content := "make pasta" }]
         max_tokens := 500
         temperature := 7/10 }] ∧
    (get_ai_response { client := some "sk-test", system_prompt := "SP" }
        (fun _ => .ok "a completion") "make pasta" [mk_user_msg "hi"]).text = "a completion" :=
  ⟨(C3_request_assembly _ "sk-test" _ _ _ rfl).1,
   (C3_request_assembly _ "sk-test" _ _ _ rfl).2 "a completion" rfl⟩

/-- C5: `get_ai_response` leaves the history it is passed unchanged — in
state-passing form the post-state history equals the input for every bot
(so on the no-credential, success and error paths alike), and no turn is
appended by the orchestrator. -/
theorem C5_history_unchanged (bot : RecipeBot)
    (backend : ChatRequest → Except String String)
    (user_message : String) (conversation_history : List Message) :
    (get_ai_response_st bot backend user_message conversation_history).2.2 =
      conversation_history :=
  rfl

/-- C6: when locating or rendering the template fails for any reason,
`_load_system_prompt` does not propagate the exception: it returns the fixed
built-in default prompt and surfaces exactly one warning notice. -/
theorem C6_prompt_load_failure_defaults (render : Option String → Except String String)
    (additional_context : Option String) (e : String)
    (hf : render additional_context = .error e) :
    load_system_prompt render additional_context =
      (default_prompt, ["Could not load prompt template: " ++ e]) := by
  simp [load_system_prompt, hf]

/-- Witness for C6 at a concrete failing render oracle. -/
theorem C6_prompt_load_failure_defaults_witness :
    load_system_prompt (fun _ => .error "recipe_bot_prompt.j2 not found") none =
      (default_prompt, ["Could not load prompt template: " ++ "recipe_bot_prompt.j2 not found"]) :=
  C6_prompt_load_failure_defaults _ none _ rfl

/-- C4: the fallback responder implements the fixed priority order — for
every utterance it returns the reply of the earliest matching keyword set in
the order pasta, meat, vegetarian, dessert (so the earliest set wins whenever
several match), and the generic capability reply when no set matches. -/
theorem C4_priority_order_and_default (user_message : String) :
    get_fallback_response user_message = earliest_matching_reply user_message := by
  cases h1 : ["pasta", "spaghetti", "noodles"].any
      (fun word => contains_sub (py_lower user_message) word) <;>
  cases h2 : ["chicken", "meat"].any
      (fun word => contains_sub (py_lower user_message) word) <;>
  cases h3 : ["vegetarian", "vegan", "vegetables"].any
      (fun word => contains_sub (py_lower user_message) word) <;>
  cases h4 : ["dessert", "sweet", "cake"].any
      (fun word => contains_sub (py_lower user_message) word) <;>
    simp [get_fallback_response, earliest_matching_reply, priority_rules, matches_set,
      List.find?, h1, h2, h3, h4]

/-- C7: the mode and the system prompt are fixed at construction — any
session of `get_ai_response` calls leaves the bot state (client and prompt)
exactly as `__init__` built it, every call attempts a backend request iff
the construction-time environment key was truthy, and the credential is
never re-read (`get_ai_response` takes no environment input, so a later
change to the environment cannot affect any call). -/
theorem C7_mode_fixed_at_construction (openai_api_key : Option String)
    (render : Option String → Except String String)
    (backend : ChatRequest → Except String String)
    (inputs : List (String × List Message)) :
    (run_calls backend (recipe_bot_init openai_api_key render).1 inputs).1 =
      (recipe_bot_init openai_api_key render).1 ∧
    (recipe_bot_init openai_api_key render).1.client.isSome = truthy openai_api_key ∧
    ((run_calls backend (recipe_bot_init openai_api_key render).1 inputs).2.all
      (fun r => (!r.calls.isEmpty) == truthy openai_api_key)) = true := by
  have h := run_calls_spec backend (recipe_bot_init openai_api_key render).1 inputs
  have hcl : (recipe_bot_init openai_api_key render).1.client.isSome = truthy openai_api_key := by
    cases openai_api_key with
    | none => rfl
    | some s => by_cases hs : s = "" <;> simp [recipe_bot_init, truthy, hs]
  exact ⟨h.1, hcl, hcl ▸ h.2⟩

/-- C8: keyword matching is contiguous-substring containment in the
lowercased utterance, not whole-word membership: the test of a keyword set
succeeds iff some keyword occurs anywhere in the lowercased text, so
"meatless" draws the meat-set reply (via the keyword "meat") and
"sweetcorn" draws the dessert-set reply (via "sweet"), although neither
utterance contains the keyword as a separate word. -/
theorem C8_substring_matching :
    (∀ (user_message : String) (keywords : List String),
      keywords.any (fun word => contains_sub (py_lower user_message) word) = true ↔
        ∃ w ∈ keywords, w.data <:+: (py_lower user_message).data) ∧
    get_fallback_response "meatless" = chicken_reply ∧
    (("meatless".data.splitOn ' ').contains "meat".data) = false ∧
    get_fallback_response "sweetcorn" = dessert_reply ∧
    (("sweetcorn".data.splitOn ' ').contains "sweet".data) = false := by
  refine ⟨fun u ws => by simp [contains_sub], by decide, by decide, by decide, by decide⟩

/-- Witness for the C8 matching characterization at a concrete utterance and
keyword set. -/
theorem C8_substring_matching_witness :
    ["chicken", "meat"].any (fun word => contains_sub (py_lower "meatless") word) = true :=
  (C8_substring_matching.1 "meatless" ["chicken", "meat"]).mpr
    ⟨"meat", by decide, by decide⟩

/-- Appending one user turn followed by one assistant turn preserves the
alternation shape. -/
theorem alternates_append_pair : ∀ (l : List Message) (p r : String),
    alternates l = true → alternates (l ++ [mk_user_msg p, mk_assistant_msg r]) = true
  | [], p, r, _ => by simp [alternates, mk_user_msg, mk_assistant_msg]
  | [_], p, r, h => by simp [alternates] at h
  | u :: a :: rest, p, r, h => by
    simp only [alternates, Bool.and_eq_true, beq_iff_eq] at h
    obtain ⟨⟨h1, h2⟩, h3⟩ := h
    have ih := alternates_append_pair rest p r h3
    simp only [List.cons_append, alternates, Bool.and_eq_true, beq_iff_eq]
    exact ⟨⟨h1, h2⟩, ih⟩

/-- A chat-input event appends exactly the user turn and the assistant turn
for the orchestrator response computed on the pre-existing history
(`messages[:-1]` after the user turn is appended is the prior history). -/
theorem step_chat_chat_input (bot : RecipeBot)
    (backend : ChatRequest → Except String String)
    (messages : List Message) (prompt : String) :
    step_chat bot backend messages (.chat_input prompt) =
      messages ++ [mk_user_msg prompt,
        mk_assistant_msg (get_ai_response bot backend prompt messages).text] := by
  simp [step_chat]

/-- One event of the chat loop preserves the alternation invariant. -/
theorem step_chat_alternates (bot : RecipeBot)
    (backend : ChatRequest → Except String String)
    (messages : List Message) (e : ChatEvent)
    (h : alternates messages = true) :
    alternates (step_chat bot backend messages e) = true := by
  cases e with
  | chat_input p =>
    rw [step_chat_chat_input]
    exact alternates_append_pair messages p _ h
  | clear_history => rfl

/-- The alternation invariant is preserved by any run of the event loop from
any alternating starting history. -/
theorem run_chat_from (bot : RecipeBot) (backend : ChatRequest → Except String String) :
    ∀ (events : List ChatEvent) (start : List Message),
      alternates start = true →
      alternates (events.foldl (step_chat bot backend) start) = true
  | [], _, h => h
  | e :: rest, start, h =>
    run_chat_from bot backend rest _ (step_chat_alternates bot backend start e h)

/-- C9: every reachable session history alternates user, assistant, user,
assistant, ... starting with a user turn (or is empty); each chat-input
event appends exactly one user turn followed by one assistant turn, and the
clear action resets the history to empty. -/
theorem C9_history_alternation (bot : RecipeBot)
    (backend : ChatRequest → Except String String) (events : List ChatEvent) :
    alternates (run_chat bot backend events) = true ∧
    (∀ (messages : List Message) (prompt : String),
      step_chat bot backend messages (.chat_input prompt) =
        messages ++ [mk_user_msg prompt,
          mk_assistant_msg (get_ai_response bot backend prompt messages).text]) ∧
    (∀ messages : List Message, step_chat bot backend messages .clear_history = []) :=
  ⟨run_chat_from bot backend events [] rfl,
   fun messages prompt => step_chat_chat_input bot backend messages prompt,
   fun _ => rfl⟩

/-- C10: the additional-context parameter is never exercised — the
constructor renders the template with `additional_context = None`, so the
resulting system prompt is the `None`-render outcome, and two render oracles
that agree at `None` give identical constructed bots. -/
theorem C10_additional_context_always_none (openai_api_key : Option String)
    (render : Option String → Except String String) :
    (recipe_bot_init openai_api_key render).1.system_prompt =
      (load_system_prompt render none).1 ∧
    (∀ render2 : Option String → Except String String, render none = render2 none →
      recipe_bot_init openai_api_key render = recipe_bot_init openai_api_key render2) := by
  refine ⟨rfl, fun render2 h => ?_⟩
  simp [recipe_bot_init, load_system_prompt, h]

/-- Witness for C10: two concrete render oracles that agree at `None` but
differ elsewhere construct identical bots. -/
theorem C10_additional_context_always_none_witness :
    (recipe_bot_init (some "sk-test") (fun _ => .ok "P")).1.system_prompt =
      (load_system_prompt (fun _ => .ok "P") none).1 ∧
    recipe_bot_init (some "sk-test") (fun _ => .ok "P") =
      recipe_bot_init (some "sk-test")
        (fun ctx => match ctx with | none => .ok "P" | some _ => .error "boom") :=
  ⟨(C10_additional_context_always_none (some "sk-test") (fun _ => .ok "P")).1,
   (C10_additional_context_always_none (some "sk-test") (fun _ => .ok "P")).2 _ rfl⟩
